import Mathlib

/-!
Verification of the car-physics core of the repository (src/src/car.py):
the `Car` state, the per-tick `update` (gravity, input mapping, friction,
speed clamp, Euler integration, collision resolution, heading wrap) and the
AABB collision resolver `handle_wall_collisions`.

Modelling conventions:
* Python floats are idealised as real numbers (`ℝ`); `math.sqrt` is
  `Real.sqrt`.
* Obstacles ("walls") are the records the level generator produces: their
  `x`, `y`, `width`, `height` come from `random.randint`, so they are
  integers (`ℤ`).
* `pygame.Rect` stores integer coordinates: constructing a `Rect` from a
  float truncates it toward zero (C float-to-long conversion), modelled by
  `pytrunc`.  The repository pins `pygame==2.5.2`, where
  `Rect.colliderect` is a strict-inequality overlap test and rects with
  zero width or height never collide (`Colliderect`).
* Python's `%` on floats with positive modulus is `pymod`.
* `self.width // 2` is integer floor division, written `carWidth / 2` on
  `ℤ` (`30 / 2 = 15`, `15 / 2 = 7`).
-/

namespace CarSim

/-- Truncation toward zero, as pygame applies to a float coordinate when
building a `Rect` (C conversion from double to long). -/
noncomputable def pytrunc (r : ℝ) : ℤ := if r < 0 then ⌈r⌉ else ⌊r⌋

/-- Python's `%` on reals with a positive right operand:
`a % b = a - b * floor (a / b)`. -/
noncomputable def pymod (a b : ℝ) : ℝ := a - b * ⌊a / b⌋

/-- An integer axis-aligned rectangle, as `pygame.Rect(x, y, w, h)`:
top-left anchored, `right = x + w`, `bottom = y + h`. -/
structure IntRect where
  x : ℤ
  y : ℤ
  w : ℤ
  h : ℤ
  deriving DecidableEq

/-- An obstacle record from the level generator: the dict
`{x, y, width, height, ...}` with integer pixel coordinates (the category
tag carries no collision behaviour and is omitted). -/
structure Wall where
  x : ℤ
  y : ℤ
  width : ℤ
  height : ℤ
  deriving DecidableEq

/-- The set of currently held direction keys (`keys[pygame.K_LEFT]`, ...). -/
structure Keys where
  left : Bool
  right : Bool
  up : Bool
  down : Bool
  deriving DecidableEq

/-- The mutable state of `Car`: position, velocity, cosmetic heading angle,
the two contact flags and the recorded wall normal. -/
structure Car where
  x : ℝ
  y : ℝ
  vel_x : ℝ
  vel_y : ℝ
  angle : ℝ
  on_ground : Bool
  on_wall : Bool
  wall_normal : ℤ × ℤ

/-- Constant `self.width = 30` of `Car.__init__`. -/
def carWidth : ℤ := 30

/-- Constant `self.height = 15` of `Car.__init__`. -/
def carHeight : ℤ := 15

/-- Constant `self.max_speed = 8`. -/
noncomputable def max_speed : ℝ := 8

/-- Constant `self.acceleration = 0.3`. -/
noncomputable def acceleration : ℝ := 0.3

/-- Constant `self.friction = 0.85`. -/
noncomputable def friction : ℝ := 0.85

/-- Constant `self.gravity = 0.5`. -/
noncomputable def gravity : ℝ := 0.5

/-- Constant `self.wall_climbing_force = 0.4`. -/
noncomputable def wall_climbing_force : ℝ := 0.4

/-- The constructor `Car.__init__(x, y)`: position as given, zero velocity,
zero angle, both contact flags cleared, wall normal `(0, 0)`.  The width,
height and physics constants are hard-coded (see `carWidth`, `carHeight`,
`max_speed`, ...); the constructor performs no validation. -/
def Car.init (x y : ℝ) : Car :=
  { x := x, y := y, vel_x := 0, vel_y := 0, angle := 0
    on_ground := false, on_wall := false, wall_normal := (0, 0) }

/-- The method `reset_position(x, y)`. -/
def Car.reset_position (c : Car) (x y : ℝ) : Car :=
  { c with x := x, y := y, vel_x := 0, vel_y := 0, angle := 0
           on_ground := false, on_wall := false }

/-- The car's collision rectangle
`pygame.Rect(self.x - self.width//2, self.y - self.height//2, self.width, self.height)`. -/
noncomputable def carRect (c : Car) : IntRect :=
  { x := pytrunc (c.x - ((carWidth / 2 : ℤ) : ℝ))
    y := pytrunc (c.y - ((carHeight / 2 : ℤ) : ℝ))
    w := carWidth
    h := carHeight }

/-- The obstacle's rectangle `pygame.Rect(wall['x'], wall['y'], wall['width'], wall['height'])`. -/
def wallRect (w : Wall) : IntRect :=
  { x := w.x, y := w.y, w := w.width, h := w.height }

/-- The test `a.colliderect(b)` of pygame 2.5.2: strict overlap on both
axes, and rectangles with zero width or height never collide. -/
def Colliderect (a b : IntRect) : Prop :=
  a.w ≠ 0 ∧ a.h ≠ 0 ∧ b.w ≠ 0 ∧ b.h ≠ 0 ∧
    a.x < b.x + b.w ∧ a.y < b.y + b.h ∧ b.x < a.x + a.w ∧ b.y < a.y + a.h

instance (a b : IntRect) : Decidable (Colliderect a b) := by
  unfold Colliderect; infer_instance

/-- The body of the wall loop of `handle_wall_collisions`, for one wall.
`rect` is the car rectangle computed once before the loop (the source does
not recompute it after a correction).  On overlap, the four separation
distances are compared and the first of top, bottom, left, right attaining
the minimum is corrected: position is snapped to the wall's edge, the
offending velocity component zeroed and the contact flag set. -/
noncomputable def resolveWall (rect : IntRect) (c : Car) (w : Wall) : Car :=
  let wr := wallRect w
  if Colliderect rect wr then
    let overlap_left : ℤ := rect.x + rect.w - wr.x
    let overlap_right : ℤ := wr.x + wr.w - rect.x
    let overlap_top : ℤ := rect.y + rect.h - wr.y
    let overlap_bottom : ℤ := wr.y + wr.h - rect.y
    let min_overlap : ℤ :=
      min (min overlap_left overlap_right) (min overlap_top overlap_bottom)
    if min_overlap = overlap_top then
      { c with y := ((wr.y - carHeight / 2 : ℤ) : ℝ), vel_y := 0, on_ground := true }
    else if min_overlap = overlap_bottom then
      { c with y := ((wr.y + wr.h + carHeight / 2 : ℤ) : ℝ), vel_y := 0 }
    else if min_overlap = overlap_left then
      { c with x := ((wr.x - carWidth / 2 : ℤ) : ℝ), vel_x := 0
               on_wall := true, wall_normal := (-1, 0) }
    else if min_overlap = overlap_right then
      { c with x := ((wr.x + wr.w + carWidth / 2 : ℤ) : ℝ), vel_x := 0
               on_wall := true, wall_normal := (1, 0) }
    else c
  else c

/-- The method `handle_wall_collisions(walls)`: the car rectangle is
computed once, both contact flags are reset, then every wall is processed
in list order. -/
noncomputable def handle_wall_collisions (walls : List Wall) (c : Car) : Car :=
  let rect := carRect c
  walls.foldl (resolveWall rect) { c with on_ground := false, on_wall := false }

/-- Gravity application at the top of `update`:
`if not self.on_ground and not self.on_wall: self.vel_y += self.gravity`. -/
noncomputable def applyGravity (c : Car) : Car :=
  if !c.on_ground && !c.on_wall then { c with vel_y := c.vel_y + gravity } else c

/-- The input-handling block of `update`: the four `if keys[...]` blocks in
source order (left, right, up, down), each branching on the wall-attached
(and for up, grounded) state. -/
noncomputable def applyInput (k : Keys) (c : Car) : Car :=
  let c :=
    if k.left then
      if c.on_wall then { c with vel_x := c.vel_x - wall_climbing_force }
      else { c with vel_x := c.vel_x - acceleration, angle := c.angle - 2 }
    else c
  let c :=
    if k.right then
      if c.on_wall then { c with vel_x := c.vel_x + wall_climbing_force }
      else { c with vel_x := c.vel_x + acceleration, angle := c.angle + 2 }
    else c
  let c :=
    if k.up then
      if c.on_wall then { c with vel_y := c.vel_y - wall_climbing_force }
      else if c.on_ground then { c with vel_y := -12 }
      else c
    else c
  let c :=
    if k.down then
      if c.on_wall then { c with vel_y := c.vel_y + wall_climbing_force }
      else { c with vel_x := c.vel_x * 0.7 }
    else c
  c

/-- The friction block of `update`: `self.vel_x *= self.friction`, then
snap to zero when `abs(self.vel_x) < 0.1`. -/
noncomputable def applyFriction (c : Car) : Car :=
  let c := { c with vel_x := c.vel_x * friction }
  if |c.vel_x| < 0.1 then { c with vel_x := 0 } else c

/-- The speed-limit block of `update`: when
`sqrt(vel_x**2 + vel_y**2) > max_speed`, both components are rescaled by
`max_speed / speed`. -/
noncomputable def clampSpeed (c : Car) : Car :=
  let speed := Real.sqrt (c.vel_x ^ 2 + c.vel_y ^ 2)
  if speed > max_speed then
    { c with vel_x := c.vel_x / speed * max_speed
             vel_y := c.vel_y / speed * max_speed }
  else c

/-- The method `update(keys, walls)`: gravity, input, friction, speed
clamp, explicit Euler position update, collision resolution, and the final
heading wrap `self.angle = self.angle % 360`. -/
noncomputable def update (k : Keys) (walls : List Wall) (c : Car) : Car :=
  let c := applyGravity c
  let c := applyInput k c
  let c := applyFriction c
  let c := clampSpeed c
  let c := { c with x := c.x + c.vel_x, y := c.y + c.vel_y }
  let c := handle_wall_collisions walls c
  { c with angle := pymod c.angle 360 }

/-- The method `get_speed()`: `sqrt(self.vel_x**2 + self.vel_y**2)`. -/
noncomputable def get_speed (c : Car) : ℝ := Real.sqrt (c.vel_x ^ 2 + c.vel_y ^ 2)

/-- The dictionary returned by `get_state()`: its keys are exactly
`position`, `velocity`, `angle`, `on_ground`, `on_wall` and `speed`. -/
structure Snapshot where
  position : ℝ × ℝ
  velocity : ℝ × ℝ
  angle : ℝ
  on_ground : Bool
  on_wall : Bool
  speed : ℝ

/-- The method `get_state()`. -/
noncomputable def get_state (c : Car) : Snapshot :=
  { position := (c.x, c.y), velocity := (c.vel_x, c.vel_y), angle := c.angle
    on_ground := c.on_ground, on_wall := c.on_wall, speed := get_speed c }

/-- Positive-area overlap of the vehicle's bounding box with an obstacle's
box, the spec's notion (section 4.1): the vehicle box is centered at the
position and spans `width` by `height` (half-extents `15` and `7.5`),
and touching edges do not count. -/
def carOverlapsWall (c : Car) (w : Wall) : Prop :=
  (w.x : ℝ) < c.x + (carWidth : ℝ) / 2 ∧
    c.x - (carWidth : ℝ) / 2 < w.x + w.width ∧
    (w.y : ℝ) < c.y + (carHeight : ℝ) / 2 ∧
    c.y - (carHeight : ℝ) / 2 < w.y + w.height

/-- Positive-area overlap of the vehicle's bounding box with an obstacle's
box shrunk by one unit on each side (the slack left by integer truncation
and floor-division of the odd height in the resolver). -/
def carOverlapsWallCore (c : Car) (w : Wall) : Prop :=
  (w.x : ℝ) + 1 < c.x + (carWidth : ℝ) / 2 ∧
    c.x - (carWidth : ℝ) / 2 < w.x + w.width - 1 ∧
    (w.y : ℝ) + 1 < c.y + (carHeight : ℝ) / 2 ∧
    c.y - (carHeight : ℝ) / 2 < w.y + w.height - 1

/-- No keys held. -/
def keys0 : Keys := ⟨false, false, false, false⟩

/-- Only the up key held. -/
def keysUp : Keys := ⟨false, false, true, false⟩

/-- The platform obstacle of the spec's concrete scenario:
`{x: 80, y: 430, width: 150, height: 30}`. -/
def platform : Wall := ⟨80, 430, 150, 30⟩

/-- The vehicle of the concrete scenario, spawned at `(100, 400)`. -/
def spawnCar : Car := Car.init 100 400

/-- A grounded car about to jump (used against claim C3). -/
def jumpCar : Car :=
  { x := 100, y := 100, vel_x := 0, vel_y := 0, angle := 0
    on_ground := true, on_wall := false, wall_normal := (0, 0) }

/-- The resting state the concrete scenario converges to: the resolver puts
the center at `430 - 15 // 2 = 423` (integer floor division of the odd
height), not at `422.5`. -/
def restCar : Car :=
  { x := 100, y := 423, vel_x := 0, vel_y := 0, angle := 0
    on_ground := true, on_wall := false, wall_normal := (0, 0) }

/-- The falling state one integration step before the scenario's landing:
position `(100, 427.5)`, falling at `5` units per tick. -/
def fallCar : Car :=
  { x := 100, y := 427.5, vel_x := 0, vel_y := 5, angle := 0
    on_ground := false, on_wall := false, wall_normal := (0, 0) }

/-- An obstacle to the right of `c6Car`, slightly overlapping vertically
once the car is pushed right (used against claim C6). -/
def wallA : Wall := ⟨118, 107, 50, 100⟩

/-- An obstacle whose right face the car `c6Car` touches from the right
(used against claim C6). -/
def wallB : Wall := ⟨0, 90, 90, 100⟩

/-- A car overlapping `wallB` and adjacent to `wallA` (used against claim C6). -/
def c6Car : Car :=
  { x := 100, y := 100, vel_x := 5, vel_y := 3, angle := 0
    on_ground := false, on_wall := false, wall_normal := (0, 0) }

/-- An obstacle record with zero width: nothing in the code rejects its
construction (used against claim C7). -/
def zeroWall : Wall := ⟨0, 0, 0, 10⟩

/-- A wall-attached car (used for claim C8). -/
def climbCar : Car :=
  { x := 1, y := 2, vel_x := 5, vel_y := 3, angle := 7
    on_ground := false, on_wall := true, wall_normal := (1, 0) }

/-- Left and down held together. -/
def keysLD : Keys := ⟨true, false, false, true⟩

/-- Two car states that differ only in the recorded wall normal (used
against claim C4). -/
def snapCarA : Car :=
  { x := 1, y := 2, vel_x := 3, vel_y := 4, angle := 5
    on_ground := false, on_wall := true, wall_normal := (1, 0) }

/-- The same state as `snapCarA` with the opposite wall normal. -/
def snapCarB : Car :=
  { x := 1, y := 2, vel_x := 3, vel_y := 4, angle := 5
    on_ground := false, on_wall := true, wall_normal := (-1, 0) }

/-- A car rectangle whose top overlap with `tieWall` ties its left overlap
(used for claim C10). -/
def tieRect : IntRect := ⟨85, 93, 30, 15⟩

/-- An obstacle for which `tieRect` attains minimal overlap on both the top
and the left side simultaneously. -/
def tieWall : Wall := ⟨113, 106, 50, 50⟩

/-- An arbitrary car state fed through the tie-break scenario. -/
def tieCar : Car :=
  { x := 100, y := 100, vel_x := 2, vel_y := 3, angle := 0
    on_ground := false, on_wall := false, wall_normal := (0, 0) }

/-- A car sliding with initial horizontal speed 5 (used for claim C9). -/
def slideCar : Car :=
  { x := 0, y := 0, vel_x := 5, vel_y := 0, angle := 0
    on_ground := false, on_wall := false, wall_normal := (0, 0) }

end CarSim

namespace CarSim

theorem pytrunc_of_nonneg (r : ℝ) (h : 0 ≤ r) : pytrunc r = ⌊r⌋ := by
  unfold pytrunc
  rw [if_neg (not_lt.mpr h)]

theorem pytrunc_intCast (n : ℤ) : pytrunc (n : ℝ) = n := by
  unfold pytrunc
  rcases lt_or_le (n : ℝ) 0 with h | h
  · rw [if_pos h, Int.ceil_intCast]
  · rw [if_neg (not_lt.mpr h), Int.floor_intCast]

theorem pymod_zero (b : ℝ) : pymod 0 b = 0 := by
  unfold pymod
  norm_num

theorem resolveWall_miss (rect : IntRect) (c : Car) (w : Wall)
    (h : ¬ Colliderect rect (wallRect w)) : resolveWall rect c w = c := by
  simp only [resolveWall]
  rw [if_neg h]

theorem resolveWall_top (rect : IntRect) (c : Car) (w : Wall)
    (hc : Colliderect rect (wallRect w))
    (h1 : rect.y + rect.h - w.y ≤ w.y + w.height - rect.y)
    (h2 : rect.y + rect.h - w.y ≤ rect.x + rect.w - w.x)
    (h3 : rect.y + rect.h - w.y ≤ w.x + w.width - rect.x) :
    resolveWall rect c w =
      { c with y := ((w.y - carHeight / 2 : ℤ) : ℝ), vel_y := 0, on_ground := true } := by
  simp only [resolveWall]
  rw [if_pos hc]
  simp only [wallRect]
  rw [if_pos (by omega)]

theorem resolveWall_bottom (rect : IntRect) (c : Car) (w : Wall)
    (hc : Colliderect rect (wallRect w))
    (h1 : w.y + w.height - rect.y ≤ rect.x + rect.w - w.x)
    (h2 : w.y + w.height - rect.y ≤ w.x + w.width - rect.x)
    (h3 : w.y + w.height - rect.y < rect.y + rect.h - w.y) :
    resolveWall rect c w =
      { c with y := ((w.y + w.height + carHeight / 2 : ℤ) : ℝ), vel_y := 0 } := by
  simp only [resolveWall]
  rw [if_pos hc]
  simp only [wallRect]
  rw [if_neg (by omega), if_pos (by omega)]

theorem resolveWall_left (rect : IntRect) (c : Car) (w : Wall)
    (hc : Colliderect rect (wallRect w))
    (h1 : rect.x + rect.w - w.x ≤ w.x + w.width - rect.x)
    (h2 : rect.x + rect.w - w.x < rect.y + rect.h - w.y)
    (h3 : rect.x + rect.w - w.x < w.y + w.height - rect.y) :
    resolveWall rect c w =
      { c with x := ((w.x - carWidth / 2 : ℤ) : ℝ), vel_x := 0
               on_wall := true, wall_normal := (-1, 0) } := by
  simp only [resolveWall]
  rw [if_pos hc]
  simp only [wallRect]
  rw [if_neg (by omega), if_neg (by omega), if_pos (by omega)]

theorem resolveWall_right (rect : IntRect) (c : Car) (w : Wall)
    (hc : Colliderect rect (wallRect w))
    (h1 : w.x + w.width - rect.x < rect.x + rect.w - w.x)
    (h2 : w.x + w.width - rect.x < rect.y + rect.h - w.y)
    (h3 : w.x + w.width - rect.x < w.y + w.height - rect.y) :
    resolveWall rect c w =
      { c with x := ((w.x + w.width + carWidth / 2 : ℤ) : ℝ), vel_x := 0
               on_wall := true, wall_normal := (1, 0) } := by
  simp only [resolveWall]
  rw [if_pos hc]
  simp only [wallRect]
  rw [if_neg (by omega), if_neg (by omega), if_neg (by omega), if_pos (by omega)]

theorem handle_one (w : Wall) (c : Car) :
    handle_wall_collisions [w] c =
      resolveWall (carRect c) { c with on_ground := false, on_wall := false } w := rfl

theorem carRect_simplify (c : Car) :
    carRect c = { x := pytrunc (c.x - 15), y := pytrunc (c.y - 7), w := 30, h := 15 } := by
  simp only [carRect, carWidth, carHeight]
  norm_num

end CarSim

namespace CarSim

theorem sqrt_sixty_four : Real.sqrt 64 = 8 := by
  rw [show (64 : ℝ) = 8 ^ 2 by norm_num, Real.sqrt_sq (by norm_num : (0:ℝ) ≤ 8)]

theorem clampSpeed_id (c : Car) (h : c.vel_x ^ 2 + c.vel_y ^ 2 ≤ 64) :
    clampSpeed c = c := by
  have hle : Real.sqrt (c.vel_x ^ 2 + c.vel_y ^ 2) ≤ max_speed := by
    rw [max_speed, Real.sqrt_le_left (by norm_num : (0:ℝ) ≤ 8)]
    linarith
  simp only [clampSpeed]
  rw [if_neg (not_lt.mpr hle)]

theorem clampSpeed_scale (c : Car) (h : 64 < c.vel_x ^ 2 + c.vel_y ^ 2) :
    clampSpeed c =
      { c with
        vel_x := c.vel_x / Real.sqrt (c.vel_x ^ 2 + c.vel_y ^ 2) * max_speed
        vel_y := c.vel_y / Real.sqrt (c.vel_x ^ 2 + c.vel_y ^ 2) * max_speed } := by
  have hlt : max_speed < Real.sqrt (c.vel_x ^ 2 + c.vel_y ^ 2) := by
    rw [max_speed, Real.lt_sqrt (by norm_num : (0:ℝ) ≤ 8)]
    linarith
  simp only [clampSpeed]
  rw [if_pos hlt]

end CarSim

namespace CarSim

/-- C4 (corrected): the read-only snapshot returned by `get_state` carries
position, velocity, heading angle, `on_ground`, `on_wall` and a `speed`
value equal to `sqrt(vel_x^2 + vel_y^2)` derived from the stored velocity
(so two states agree on the snapshot exactly when they agree on those six
stored fields); contrary to the claim, the snapshot does NOT contain the
wall normal (see the counterexample `get_state_drops_wall_normal`). -/
theorem get_state_fields (c c' : Car) :
    (get_state c).speed = Real.sqrt (c.vel_x ^ 2 + c.vel_y ^ 2) ∧
    (get_state c = get_state c' ↔
      c.x = c'.x ∧ c.y = c'.y ∧ c.vel_x = c'.vel_x ∧ c.vel_y = c'.vel_y ∧
        c.angle = c'.angle ∧ c.on_ground = c'.on_ground ∧ c.on_wall = c'.on_wall) := by
  refine ⟨rfl, ?_⟩
  simp only [get_state, get_speed, Snapshot.mk.injEq, Prod.mk.injEq]
  constructor
  · rintro ⟨⟨h1, h2⟩, ⟨h3, h4⟩, h5, h6, h7, -⟩
    exact ⟨h1, h2, h3, h4, h5, h6, h7⟩
  · rintro ⟨h1, h2, h3, h4, h5, h6, h7⟩
    rw [h1, h2, h3, h4, h5, h6, h7]
    simp

/-- C4, counterexample: two car states that differ only in the recorded
wall normal produce identical `get_state` snapshots, so the snapshot does
not contain the `wallNormal` field the claim lists. -/
theorem get_state_drops_wall_normal :
    get_state snapCarA = get_state snapCarB ∧ snapCarA.wall_normal ≠ snapCarB.wall_normal := by
  exact ⟨rfl, by decide⟩

/-- C8 (confirmed): while `on_wall` is true at the start of a tick, the
input block of `update` maps left/right to `vel_x ∓/± wall_climbing_force`,
up to `vel_y -= wall_climbing_force` and down to
`vel_y += wall_climbing_force`, leaving the heading angle (and everything
else) untouched — the wall-climb mode overrides the normal
acceleration/jump/brake semantics. -/
theorem wall_climb_mapping (k : Keys) (c : Car) (hw : c.on_wall = true) :
    applyInput k c =
      { c with
        vel_x := c.vel_x + (if k.left then -wall_climbing_force else 0) +
          (if k.right then wall_climbing_force else 0)
        vel_y := c.vel_y + (if k.up then -wall_climbing_force else 0) +
          (if k.down then wall_climbing_force else 0) } := by
  rcases c with ⟨cx, cy, cvx, cvy, ca, cg, cw, cn⟩
  simp only at hw
  subst hw
  rcases k with ⟨l, r, u, d⟩
  cases l <;> cases r <;> cases u <;> cases d <;>
    simp [applyInput, Car.mk.injEq, sub_eq_add_neg]

/-- C8, witness: a wall-attached car with left and down held: the input
block subtracts the climbing force from `vel_x`, adds it to `vel_y`, and
leaves the heading angle at its prior value. -/
theorem wall_climb_mapping_witness :
    applyInput keysLD climbCar =
      { climbCar with vel_x := climbCar.vel_x + -wall_climbing_force + 0
                      vel_y := climbCar.vel_y + 0 + wall_climbing_force } := by
  rw [wall_climb_mapping keysLD climbCar rfl]
  simp [keysLD]

end CarSim

namespace CarSim

theorem clampSpeed_spec (c : Car) :
    get_speed (clampSpeed c) ≤ max_speed ∧
    (max_speed < get_speed c →
      get_speed (clampSpeed c) = max_speed ∧
      ∃ t : ℝ, 0 < t ∧ (clampSpeed c).vel_x = t * c.vel_x ∧
        (clampSpeed c).vel_y = t * c.vel_y) := by
  rcases le_or_lt (get_speed c) max_speed with h | h
  · have hc : c.vel_x ^ 2 + c.vel_y ^ 2 ≤ 64 := by
      have h8 : Real.sqrt (c.vel_x ^ 2 + c.vel_y ^ 2) ≤ 8 := by
        simpa [get_speed, max_speed] using h
      have := (Real.sqrt_le_left (by norm_num : (0:ℝ) ≤ 8)).mp h8
      linarith
    rw [clampSpeed_id c hc]
    exact ⟨h, fun hlt => absurd hlt (not_lt.mpr h)⟩
  · have h64 : 64 < c.vel_x ^ 2 + c.vel_y ^ 2 := by
      have h8 : (8:ℝ) < Real.sqrt (c.vel_x ^ 2 + c.vel_y ^ 2) := by
        simpa [get_speed, max_speed] using h
      have := (Real.lt_sqrt (by positivity)).mp h8
      linarith
    have hargpos : (0:ℝ) < c.vel_x ^ 2 + c.vel_y ^ 2 := by linarith
    have hS : (0:ℝ) < Real.sqrt (c.vel_x ^ 2 + c.vel_y ^ 2) := Real.sqrt_pos.mpr hargpos
    have harg : Real.sqrt (c.vel_x ^ 2 + c.vel_y ^ 2) ^ 2 = c.vel_x ^ 2 + c.vel_y ^ 2 :=
      Real.sq_sqrt (le_of_lt hargpos)
    have key : (c.vel_x / Real.sqrt (c.vel_x ^ 2 + c.vel_y ^ 2) * max_speed) ^ 2 +
        (c.vel_y / Real.sqrt (c.vel_x ^ 2 + c.vel_y ^ 2) * max_speed) ^ 2 = 64 := by
      rw [max_speed]
      field_simp
      nlinarith [harg]
    have heq : get_speed (clampSpeed c) = max_speed := by
      rw [clampSpeed_scale c h64]
      simp only [get_speed]
      rw [key, sqrt_sixty_four, max_speed]
    refine ⟨le_of_eq heq, fun _ => ⟨heq, max_speed / Real.sqrt (c.vel_x ^ 2 + c.vel_y ^ 2),
      by rw [max_speed]; positivity, ?_, ?_⟩⟩
    · rw [clampSpeed_scale c h64]
      ring
    · rw [clampSpeed_scale c h64]
      ring

/-- C5 (confirmed): for every held-key set and every prior state, after the
velocity pipeline of a tick (gravity, input, friction, speed clamp) the
speed `sqrt(vel_x^2 + vel_y^2)` is at most `max_speed`; and whenever the
candidate (pre-clamp) speed exceeds `max_speed`, the clamp rescales both
components by one positive factor (preserving direction) to magnitude
exactly `max_speed`.  The subsequent position update does not change the
velocity, so this is the speed immediately after integration. -/
theorem speed_clamp_invariant (k : Keys) (c : Car) :
    get_speed (clampSpeed (applyFriction (applyInput k (applyGravity c)))) ≤ max_speed ∧
    (max_speed < get_speed (applyFriction (applyInput k (applyGravity c))) →
      get_speed (clampSpeed (applyFriction (applyInput k (applyGravity c)))) = max_speed ∧
      ∃ t : ℝ, 0 < t ∧
        (clampSpeed (applyFriction (applyInput k (applyGravity c)))).vel_x =
          t * (applyFriction (applyInput k (applyGravity c))).vel_x ∧
        (clampSpeed (applyFriction (applyInput k (applyGravity c)))).vel_y =
          t * (applyFriction (applyInput k (applyGravity c))).vel_y) :=
  clampSpeed_spec (applyFriction (applyInput k (applyGravity c)))

/-- C3 (corrected): the jump is an assignment, not an addition, but it is
visible as `-12` only inside the input stage: whenever the car starts the
tick grounded, not wall-attached, and up is held, the input block of
`update` assigns `vel_y := -12` regardless of the prior `vel_y`.  One full
tick of `update` does NOT end with `vel_y = -12`: the speed clamp in the
same tick rescales the jump impulse because `12 > max_speed = 8` (see the
counterexample `jump_tick_rescaled`). -/
theorem jump_assigns_vel_y (k : Keys) (c : Car)
    (hg : c.on_ground = true) (hw : c.on_wall = false) (hu : k.up = true) :
    (applyInput k c).vel_y = -12 := by
  rcases c with ⟨cx, cy, cvx, cvy, ca, cg, cw, cn⟩
  simp only at hg hw
  subst hg; subst hw
  rcases k with ⟨l, r, u, d⟩
  simp only at hu
  subst hu
  cases l <;> cases r <;> cases d <;> simp [applyInput]

/-- C3, witness: a grounded car with zero velocity and up held gets
`vel_y = -12` from the input stage. -/
theorem jump_assigns_vel_y_witness : (applyInput keysUp jumpCar).vel_y = -12 :=
  jump_assigns_vel_y keysUp jumpCar rfl rfl rfl

/-- C3, counterexample: from a grounded car at rest with up held and no
obstacles, one full tick of `update` leaves `vel_y = -8`, not `-12`: the
claim as stated (`vy == -jumpSpeed` one tick of update later) is false on
the code, because the speed clamp rescales the fresh jump impulse. -/
theorem jump_tick_rescaled :
    (update keysUp [] jumpCar).vel_y = -8 ∧ (update keysUp [] jumpCar).vel_y ≠ -12 := by
  have e1 : applyGravity jumpCar = jumpCar := by
    simp [applyGravity, jumpCar]
  have e2 : applyInput keysUp jumpCar =
      { x := 100, y := 100, vel_x := 0, vel_y := -12, angle := 0
        on_ground := true, on_wall := false, wall_normal := (0, 0) } := by
    simp [applyInput, keysUp, jumpCar]
  have e3 : applyFriction
      { x := 100, y := 100, vel_x := 0, vel_y := -12, angle := 0
        on_ground := true, on_wall := false, wall_normal := (0, 0) } =
      { x := 100, y := 100, vel_x := 0, vel_y := -12, angle := 0
        on_ground := true, on_wall := false, wall_normal := (0, 0) } := by
    norm_num [applyFriction, friction]
  have hS : Real.sqrt (144:ℝ) = 12 := by
    rw [show (144:ℝ) = 12 ^ 2 by norm_num, Real.sqrt_sq (by norm_num : (0:ℝ) ≤ 12)]
  have e4 : clampSpeed
      { x := 100, y := 100, vel_x := 0, vel_y := -12, angle := 0
        on_ground := true, on_wall := false, wall_normal := (0, 0) } =
      { x := 100, y := 100, vel_x := 0, vel_y := -8, angle := 0
        on_ground := true, on_wall := false, wall_normal := (0, 0) } := by
    rw [clampSpeed_scale _ (by norm_num)]
    simp only [max_speed]
    rw [Car.mk.injEq]
    norm_num [hS]
  have hupdate : update keysUp [] jumpCar =
      { x := 100, y := 92, vel_x := 0, vel_y := -8, angle := 0
        on_ground := false, on_wall := false, wall_normal := (0, 0) } := by
    simp only [update]
    rw [e1, e2, e3, e4]
    simp only [handle_wall_collisions, List.foldl_nil]
    rw [Car.mk.injEq]
    norm_num [pymod_zero]
  rw [hupdate]
  norm_num

end CarSim

namespace CarSim

/-- C10 (confirmed): for each obstacle overlapping the (once-computed) car
rectangle, the loop body of `handle_wall_collisions` applies exactly one
side correction, the first side attaining the minimum overlap in the fixed
check order top, bottom, left, right; in particular when the minimum is
attained simultaneously by the top side and a lateral side, the ground
correction is applied — `on_ground` set and `vel_y` zeroed — while `x`,
`vel_x`, `on_wall` and `wall_normal` are left untouched for that obstacle. -/
theorem side_priority (c : Car) (rect : IntRect) (w : Wall)
    (hc : Colliderect rect (wallRect w)) :
    (rect.y + rect.h - w.y ≤ w.y + w.height - rect.y →
      rect.y + rect.h - w.y ≤ rect.x + rect.w - w.x →
      rect.y + rect.h - w.y ≤ w.x + w.width - rect.x →
      resolveWall rect c w =
        { c with y := ((w.y - carHeight / 2 : ℤ) : ℝ), vel_y := 0, on_ground := true }) ∧
    (w.y + w.height - rect.y ≤ rect.x + rect.w - w.x →
      w.y + w.height - rect.y ≤ w.x + w.width - rect.x →
      w.y + w.height - rect.y < rect.y + rect.h - w.y →
      resolveWall rect c w =
        { c with y := ((w.y + w.height + carHeight / 2 : ℤ) : ℝ), vel_y := 0 }) ∧
    (rect.x + rect.w - w.x ≤ w.x + w.width - rect.x →
      rect.x + rect.w - w.x < rect.y + rect.h - w.y →
      rect.x + rect.w - w.x < w.y + w.height - rect.y →
      resolveWall rect c w =
        { c with x := ((w.x - carWidth / 2 : ℤ) : ℝ), vel_x := 0
                 on_wall := true, wall_normal := (-1, 0) }) ∧
    (w.x + w.width - rect.x < rect.x + rect.w - w.x →
      w.x + w.width - rect.x < rect.y + rect.h - w.y →
      w.x + w.width - rect.x < w.y + w.height - rect.y →
      resolveWall rect c w =
        { c with x := ((w.x + w.width + carWidth / 2 : ℤ) : ℝ), vel_x := 0
                 on_wall := true, wall_normal := (1, 0) }) :=
  ⟨fun h1 h2 h3 => resolveWall_top rect c w hc h1 h2 h3,
   fun h1 h2 h3 => resolveWall_bottom rect c w hc h1 h2 h3,
   fun h1 h2 h3 => resolveWall_left rect c w hc h1 h2 h3,
   fun h1 h2 h3 => resolveWall_right rect c w hc h1 h2 h3⟩

/-- C10, witness: a concrete tie — the car rectangle `(85, 93, 30, 15)`
penetrates `tieWall` two units deep from the top and two from the left —
resolves as a ground landing: `y` snapped to `106 - 7 = 99`, `vel_y`
zeroed, `on_ground` set, everything else untouched. -/
theorem side_priority_witness :
    resolveWall tieRect tieCar tieWall =
      { tieCar with y := 99, vel_y := 0, on_ground := true } := by
  have h := (side_priority tieCar tieRect tieWall (by decide)).1
    (by decide) (by decide) (by decide)
  rw [h]
  norm_num [tieWall, carHeight]

theorem degenerate_wall_no_collide (rect : IntRect) (c : Car) (w : Wall)
    (h : w.width = 0 ∨ w.height = 0) : resolveWall rect c w = c := by
  apply resolveWall_miss
  rcases h with h | h <;> simp [Colliderect, wallRect, h]

theorem handle_wall_collisions_degenerate (ws1 ws2 : List Wall) (w : Wall) (c : Car)
    (h : w.width = 0 ∨ w.height = 0) :
    handle_wall_collisions (ws1 ++ w :: ws2) c = handle_wall_collisions (ws1 ++ ws2) c := by
  simp only [handle_wall_collisions, List.foldl_append, List.foldl_cons]
  rw [degenerate_wall_no_collide _ _ _ h]

/-- C7 (corrected): the code performs no construction-time validation at
all — `Car.__init__` accepts any spawn position and hard-codes the (valid)
30 by 15 size, and obstacles are plain unvalidated records — so an
invalid (zero-sized) obstacle is never rejected; what does hold is tick
totality: `update` is a total function, and it processes a zero-width or
zero-height obstacle anywhere in the list by silently ignoring it
(pygame 2.5.2 rects of zero size never collide) instead of failing. -/
theorem tick_ignores_degenerate_wall (k : Keys) (c : Car) (ws1 ws2 : List Wall) (w : Wall)
    (h : w.width = 0 ∨ w.height = 0) :
    update k (ws1 ++ w :: ws2) c = update k (ws1 ++ ws2) c := by
  simp only [update]
  rw [handle_wall_collisions_degenerate ws1 ws2 w _ h]

/-- C7, witness: a tick over a list holding only the zero-width obstacle
`zeroWall` equals the tick over no obstacles at all. -/
theorem tick_ignores_degenerate_wall_witness :
    update keys0 [zeroWall] spawnCar = update keys0 [] spawnCar :=
  tick_ignores_degenerate_wall keys0 spawnCar [] [] zeroWall (Or.inl rfl)

theorem applyInput_none (c : Car) : applyInput keys0 c = c := by
  simp [applyInput, keys0]

/-- C7, counterexample: the claim's fail-fast half is false — an obstacle
with zero width is constructible and a full tick runs on it normally,
returning the plain gravity step; nothing anywhere rejected the invalid
configuration at construction time. -/
theorem degenerate_wall_not_rejected :
    update keys0 [zeroWall] spawnCar =
      { x := 100, y := 400.5, vel_x := 0, vel_y := 0.5, angle := 0
        on_ground := false, on_wall := false, wall_normal := (0, 0) } := by
  have e1 : applyGravity spawnCar =
      { x := 100, y := 400, vel_x := 0, vel_y := 0.5, angle := 0
        on_ground := false, on_wall := false, wall_normal := (0, 0) } := by
    norm_num [applyGravity, spawnCar, Car.init, gravity, Car.mk.injEq]
  have e2 : applyInput keys0
      { x := 100, y := 400, vel_x := 0, vel_y := 0.5, angle := 0
        on_ground := false, on_wall := false, wall_normal := (0, 0) } =
      { x := 100, y := 400, vel_x := 0, vel_y := 0.5, angle := 0
        on_ground := false, on_wall := false, wall_normal := (0, 0) } :=
    applyInput_none _
  have e3 : applyFriction
      { x := 100, y := 400, vel_x := 0, vel_y := 0.5, angle := 0
        on_ground := false, on_wall := false, wall_normal := (0, 0) } =
      { x := 100, y := 400, vel_x := 0, vel_y := 0.5, angle := 0
        on_ground := false, on_wall := false, wall_normal := (0, 0) } := by
    norm_num [applyFriction, friction, Car.mk.injEq]
  have e4 : clampSpeed
      { x := 100, y := 400, vel_x := 0, vel_y := 0.5, angle := 0
        on_ground := false, on_wall := false, wall_normal := (0, 0) } =
      { x := 100, y := 400, vel_x := 0, vel_y := 0.5, angle := 0
        on_ground := false, on_wall := false, wall_normal := (0, 0) } :=
    clampSpeed_id _ (by norm_num)
  simp only [update]
  rw [e1, e2, e3, e4]
  simp only [handle_wall_collisions]
  rw [List.foldl_cons, degenerate_wall_no_collide _ _ _ (Or.inl rfl), List.foldl_nil]
  rw [Car.mk.injEq]
  norm_num [pymod_zero]

end CarSim

namespace CarSim

theorem pytrunc_eq_of (r : ℝ) (n : ℤ) (h0 : 0 ≤ r) (h1 : (n:ℝ) ≤ r) (h2 : r < n + 1) :
    pytrunc r = n := by
  rw [pytrunc_of_nonneg r h0]
  exact Int.floor_eq_iff.mpr ⟨h1, h2⟩

theorem resolve_fall : handle_wall_collisions [platform] fallCar = restCar := by
  have hrect : carRect fallCar = ⟨85, 420, 30, 15⟩ := by
    rw [carRect_simplify]
    have hx : pytrunc (fallCar.x - 15) = 85 :=
      pytrunc_eq_of _ 85 (by norm_num [fallCar]) (by norm_num [fallCar]) (by norm_num [fallCar])
    have hy : pytrunc (fallCar.y - 7) = 420 :=
      pytrunc_eq_of _ 420 (by norm_num [fallCar]) (by norm_num [fallCar]) (by norm_num [fallCar])
    rw [hx, hy]
  rw [handle_one, hrect]
  rw [resolveWall_top _ _ _ (by decide) (by decide) (by decide) (by decide)]
  norm_num [fallCar, restCar, platform, carHeight, Car.mk.injEq]

/-- C1, counterexample: one resolver call on the concrete landing state
leaves the vehicle's bounding box still overlapping the platform: the
resolver snaps the center to `430 - 15 // 2 = 423`, so the box bottom
`423 + 7.5 = 430.5` still penetrates the platform top `430` by half a
unit — the non-penetration post-condition is false as stated. -/
theorem nonpenetration_cex :
    carOverlapsWall (handle_wall_collisions [platform] fallCar) platform := by
  rw [resolve_fall]
  norm_num [carOverlapsWall, restCar, platform, carWidth, carHeight]

/-- C1 (corrected): the exact post-condition fails (see
`nonpenetration_cex`): the resolver works on the truncated integer
rectangle with floor-divided half-extents, leaving sub-unit residual
penetration.  What holds is non-penetration up to that rounding, for a
single obstacle: for every vehicle state whose rect corner has nonnegative
coordinates (the game's world coordinates) and every positive-size
obstacle, after `handle_wall_collisions` the vehicle's box does not
overlap the obstacle's box shrunk by one unit on each side.  (With several
obstacles even this amended bound fails — a later correction can push the
box back into an earlier obstacle — a limitation the spec documents in
section 4.4, point 4; claim C6's counterexample exhibits such a cascade.) -/
theorem nonpenetration_up_to_rounding (c : Car) (w : Wall)
    (hww : 0 < w.width) (hwh : 0 < w.height)
    (hcx : 0 ≤ c.x - 15) (hcy : 0 ≤ c.y - 7) :
    ¬ carOverlapsWallCore (handle_wall_collisions [w] c) w := by
  intro hCore
  rw [handle_one] at hCore
  have hrx : (carRect c).x = ⌊c.x - 15⌋ := by
    rw [carRect_simplify]; exact pytrunc_of_nonneg _ hcx
  have hry : (carRect c).y = ⌊c.y - 7⌋ := by
    rw [carRect_simplify]; exact pytrunc_of_nonneg _ hcy
  have hrw : (carRect c).w = 30 := by rw [carRect_simplify]
  have hrh : (carRect c).h = 15 := by rw [carRect_simplify]
  by_cases hcol : Colliderect (carRect c) (wallRect w)
  · have hcases : ((carRect c).y + (carRect c).h - w.y ≤ w.y + w.height - (carRect c).y ∧
        (carRect c).y + (carRect c).h - w.y ≤ (carRect c).x + (carRect c).w - w.x ∧
        (carRect c).y + (carRect c).h - w.y ≤ w.x + w.width - (carRect c).x) ∨
      (w.y + w.height - (carRect c).y ≤ (carRect c).x + (carRect c).w - w.x ∧
        w.y + w.height - (carRect c).y ≤ w.x + w.width - (carRect c).x ∧
        w.y + w.height - (carRect c).y < (carRect c).y + (carRect c).h - w.y) ∨
      ((carRect c).x + (carRect c).w - w.x ≤ w.x + w.width - (carRect c).x ∧
        (carRect c).x + (carRect c).w - w.x < (carRect c).y + (carRect c).h - w.y ∧
        (carRect c).x + (carRect c).w - w.x < w.y + w.height - (carRect c).y) ∨
      (w.x + w.width - (carRect c).x < (carRect c).x + (carRect c).w - w.x ∧
        w.x + w.width - (carRect c).x < (carRect c).y + (carRect c).h - w.y ∧
        w.x + w.width - (carRect c).x < w.y + w.height - (carRect c).y) := by omega
    rcases hcases with ⟨h1, h2, h3⟩ | ⟨h1, h2, h3⟩ | ⟨h1, h2, h3⟩ | ⟨h1, h2, h3⟩
    · rw [resolveWall_top _ _ _ hcol h1 h2 h3] at hCore
      norm_num [carOverlapsWallCore, carWidth, carHeight] at hCore
      obtain ⟨-, -, q3, -⟩ := hCore
      linarith
    · rw [resolveWall_bottom _ _ _ hcol h1 h2 h3] at hCore
      norm_num [carOverlapsWallCore, carWidth, carHeight] at hCore
      obtain ⟨-, -, -, q4⟩ := hCore
      linarith
    · rw [resolveWall_left _ _ _ hcol h1 h2 h3] at hCore
      norm_num [carOverlapsWallCore, carWidth, carHeight] at hCore
    · rw [resolveWall_right _ _ _ hcol h1 h2 h3] at hCore
      norm_num [carOverlapsWallCore, carWidth, carHeight] at hCore
      linarith [hCore.2.1]
  · rw [resolveWall_miss _ _ _ hcol] at hCore
    norm_num [carOverlapsWallCore, carWidth, carHeight] at hCore
    obtain ⟨q1, q2, q3, q4⟩ := hCore
    apply hcol
    simp only [Colliderect, wallRect]
    refine ⟨by rw [hrw]; norm_num, by rw [hrh]; norm_num, by omega, by omega, ?_, ?_, ?_, ?_⟩
    · rw [hrx]
      rw [Int.floor_lt]
      push_cast
      linarith
    · rw [hry]
      rw [Int.floor_lt]
      push_cast
      linarith
    · rw [hrx, hrw]
      have hfl : c.x - 15 < (⌊c.x - 15⌋ : ℝ) + 1 := Int.lt_floor_add_one _
      have : (w.x : ℝ) < ((⌊c.x - 15⌋ + 30 : ℤ) : ℝ) := by push_cast; linarith
      exact_mod_cast this
    · rw [hry, hrh]
      have hfl : c.y - 7 < (⌊c.y - 7⌋ : ℝ) + 1 := Int.lt_floor_add_one _
      have : (w.y : ℝ) < ((⌊c.y - 7⌋ + 15 : ℤ) : ℝ) := by push_cast; linarith
      exact_mod_cast this

/-- C1, witness: the landing scenario satisfies the amended bound — the
resolved state does not overlap the platform shrunk by one unit. -/
theorem nonpenetration_up_to_rounding_witness :
    ¬ carOverlapsWallCore (handle_wall_collisions [platform] fallCar) platform :=
  nonpenetration_up_to_rounding fallCar platform (by norm_num [platform])
    (by norm_num [platform]) (by norm_num [fallCar]) (by norm_num [fallCar])

end CarSim

namespace CarSim

theorem c6_first_call :
    handle_wall_collisions [wallA, wallB] c6Car =
      { x := 105, y := 100, vel_x := 0, vel_y := 3, angle := 0
        on_ground := false, on_wall := true, wall_normal := (1, 0) } := by
  have hrect : carRect c6Car = ⟨85, 93, 30, 15⟩ := by
    rw [carRect_simplify]
    have hx : pytrunc (c6Car.x - 15) = 85 :=
      pytrunc_eq_of _ 85 (by norm_num [c6Car]) (by norm_num [c6Car]) (by norm_num [c6Car])
    have hy : pytrunc (c6Car.y - 7) = 93 :=
      pytrunc_eq_of _ 93 (by norm_num [c6Car]) (by norm_num [c6Car]) (by norm_num [c6Car])
    rw [hx, hy]
  simp only [handle_wall_collisions]
  rw [hrect]
  rw [List.foldl_cons, resolveWall_miss _ _ _ (by decide), List.foldl_cons,
    resolveWall_right _ _ _ (by decide) (by decide) (by decide) (by decide), List.foldl_nil]
  norm_num [c6Car, wallB, carWidth, Car.mk.injEq]

theorem c6_second_call :
    handle_wall_collisions [wallA, wallB]
      { x := 105, y := 100, vel_x := 0, vel_y := 3, angle := 0
        on_ground := false, on_wall := true, wall_normal := (1, 0) } =
      { x := 105, y := 100, vel_x := 0, vel_y := 0, angle := 0
        on_ground := true, on_wall := false, wall_normal := (1, 0) } := by
  have hrect : carRect
      { x := 105, y := 100, vel_x := 0, vel_y := 3, angle := 0
        on_ground := false, on_wall := true, wall_normal := (1, 0) } = ⟨90, 93, 30, 15⟩ := by
    rw [carRect_simplify]
    have hx : pytrunc ((105:ℝ) - 15) = 90 :=
      pytrunc_eq_of _ 90 (by norm_num) (by norm_num) (by norm_num)
    have hy : pytrunc ((100:ℝ) - 7) = 93 :=
      pytrunc_eq_of _ 93 (by norm_num) (by norm_num) (by norm_num)
    rw [hx, hy]
  simp only [handle_wall_collisions]
  rw [hrect]
  rw [List.foldl_cons,
    resolveWall_top _ _ _ (by decide) (by decide) (by decide) (by decide),
    List.foldl_cons, resolveWall_miss _ _ _ (by decide), List.foldl_nil]
  norm_num [wallA, carHeight, Car.mk.injEq]

/-- C6, counterexample: with the two obstacles `wallA, wallB` and the state
`c6Car`, the first resolver call pushes the car rightward out of `wallB`
(into contact range of `wallA`, which was processed earlier in the same
pass against the stale rectangle, so it is missed); the second call then
lands on `wallA`: it zeroes `vel_y`, sets `on_ground` and clears
`on_wall` — calling the resolver twice is not the same as calling it
once. -/
theorem resolve_not_idempotent :
    handle_wall_collisions [wallA, wallB] (handle_wall_collisions [wallA, wallB] c6Car) ≠
      handle_wall_collisions [wallA, wallB] c6Car := by
  rw [c6_first_call, c6_second_call]
  intro h
  have hv := congrArg Car.vel_y h
  norm_num at hv

end CarSim

namespace CarSim

/-- C6 (corrected): resolution is not idempotent in general (see
`resolve_not_idempotent`: with two obstacles, or even with one lateral
contact, the second call changes contact flags and can change velocity).
What does hold: for a single obstacle (of positive size, the spec's
obstacle invariant), a second resolver call with no intervening
integration leaves position and velocity unchanged — a top correction
re-fires identically on the residual one-pixel rect overlap, a bottom or
lateral correction separates the integer rects so the second call misses. -/
theorem resolve_single_pos_vel (c : Car) (w : Wall)
    (_hww : 0 < w.width) (_hwh : 0 < w.height) :
    (handle_wall_collisions [w] (handle_wall_collisions [w] c)).x =
        (handle_wall_collisions [w] c).x ∧
      (handle_wall_collisions [w] (handle_wall_collisions [w] c)).y =
        (handle_wall_collisions [w] c).y ∧
      (handle_wall_collisions [w] (handle_wall_collisions [w] c)).vel_x =
        (handle_wall_collisions [w] c).vel_x ∧
      (handle_wall_collisions [w] (handle_wall_collisions [w] c)).vel_y =
        (handle_wall_collisions [w] c).vel_y := by
  have hx1 : (carRect c).x = pytrunc (c.x - 15) := by rw [carRect_simplify]
  have hy1 : (carRect c).y = pytrunc (c.y - 7) := by rw [carRect_simplify]
  have hw1 : (carRect c).w = 30 := by rw [carRect_simplify]
  have hh1 : (carRect c).h = 15 := by rw [carRect_simplify]
  by_cases hcol : Colliderect (carRect c) (wallRect w)
  · have hparts : (carRect c).w ≠ 0 ∧ (carRect c).h ≠ 0 ∧ w.width ≠ 0 ∧ w.height ≠ 0 ∧
        (carRect c).x < w.x + w.width ∧ (carRect c).y < w.y + w.height ∧
        w.x < (carRect c).x + (carRect c).w ∧ w.y < (carRect c).y + (carRect c).h := hcol
    obtain ⟨-, -, hw0, hh0, h5, h6, h7, h8⟩ := hparts
    rw [hx1] at h5 h7
    rw [hy1] at h6 h8
    rw [hw1] at h7
    rw [hh1] at h8
    have hcases :
        (pytrunc (c.y - 7) + 15 - w.y ≤ w.y + w.height - pytrunc (c.y - 7) ∧
          pytrunc (c.y - 7) + 15 - w.y ≤ pytrunc (c.x - 15) + 30 - w.x ∧
          pytrunc (c.y - 7) + 15 - w.y ≤ w.x + w.width - pytrunc (c.x - 15)) ∨
        (w.y + w.height - pytrunc (c.y - 7) ≤ pytrunc (c.x - 15) + 30 - w.x ∧
          w.y + w.height - pytrunc (c.y - 7) ≤ w.x + w.width - pytrunc (c.x - 15) ∧
          w.y + w.height - pytrunc (c.y - 7) < pytrunc (c.y - 7) + 15 - w.y) ∨
        (pytrunc (c.x - 15) + 30 - w.x ≤ w.x + w.width - pytrunc (c.x - 15) ∧
          pytrunc (c.x - 15) + 30 - w.x < pytrunc (c.y - 7) + 15 - w.y ∧
          pytrunc (c.x - 15) + 30 - w.x < w.y + w.height - pytrunc (c.y - 7)) ∨
        (w.x + w.width - pytrunc (c.x - 15) < pytrunc (c.x - 15) + 30 - w.x ∧
          w.x + w.width - pytrunc (c.x - 15) < pytrunc (c.y - 7) + 15 - w.y ∧
          w.x + w.width - pytrunc (c.x - 15) < w.y + w.height - pytrunc (c.y - 7)) := by
      omega
    rcases hcases with ⟨h1, h2, h3⟩ | ⟨h1, h2, h3⟩ | ⟨h1, h2, h3⟩ | ⟨h1, h2, h3⟩
    · -- ground correction; the second call re-applies the same correction
      have e1 : handle_wall_collisions [w] c =
          { c with y := ((w.y - carHeight / 2 : ℤ) : ℝ), vel_y := 0
                   on_ground := true, on_wall := false } := by
        rw [handle_one, resolveWall_top _ _ _ hcol (by rw [hy1, hh1]; omega)
          (by rw [hx1, hy1, hw1, hh1]; omega) (by rw [hx1, hy1, hh1]; omega)]
      have hyB : pytrunc (((w.y - carHeight / 2 : ℤ) : ℝ) - 7) = w.y - 14 := by
        rw [show ((w.y - carHeight / 2 : ℤ) : ℝ) - 7 = ((w.y - 14 : ℤ) : ℝ) by
          rw [show (carHeight / 2 : ℤ) = 7 by decide]; push_cast; ring]
        exact pytrunc_intCast _
      have hrect2 : carRect
          { c with y := ((w.y - carHeight / 2 : ℤ) : ℝ), vel_y := 0
                   on_ground := true, on_wall := false } =
          ⟨pytrunc (c.x - 15), w.y - 14, 30, 15⟩ := by
        rw [carRect_simplify]
        congr 1
      have hc2 : Colliderect ⟨pytrunc (c.x - 15), w.y - 14, 30, 15⟩ (wallRect w) := by
        simp only [Colliderect, wallRect]
        refine ⟨by norm_num, by norm_num, hw0, hh0, by omega, by omega, by omega, by omega⟩
      rw [e1, handle_one, hrect2, resolveWall_top _ _ _ hc2
        (by show (w.y - 14) + 15 - w.y ≤ w.y + w.height - (w.y - 14); omega)
        (by show (w.y - 14) + 15 - w.y ≤ pytrunc (c.x - 15) + 30 - w.x; omega)
        (by show (w.y - 14) + 15 - w.y ≤ w.x + w.width - pytrunc (c.x - 15); omega)]
      exact ⟨rfl, rfl, rfl, rfl⟩
    · -- ceiling correction; the second call misses
      have e1 : handle_wall_collisions [w] c =
          { c with y := ((w.y + w.height + carHeight / 2 : ℤ) : ℝ), vel_y := 0
                   on_ground := false, on_wall := false } := by
        rw [handle_one, resolveWall_bottom _ _ _ hcol (by rw [hx1, hy1, hw1]; omega)
          (by rw [hx1, hy1]; omega) (by rw [hy1, hh1]; omega)]
      have hyB : pytrunc (((w.y + w.height + carHeight / 2 : ℤ) : ℝ) - 7) = w.y + w.height := by
        rw [show ((w.y + w.height + carHeight / 2 : ℤ) : ℝ) - 7 = ((w.y + w.height : ℤ) : ℝ) by
          rw [show (carHeight / 2 : ℤ) = 7 by decide]; push_cast; ring]
        exact pytrunc_intCast _
      have hrect2 : carRect
          { c with y := ((w.y + w.height + carHeight / 2 : ℤ) : ℝ), vel_y := 0
                   on_ground := false, on_wall := false } =
          ⟨pytrunc (c.x - 15), w.y + w.height, 30, 15⟩ := by
        rw [carRect_simplify]
        congr 1
      have hnc : ¬ Colliderect ⟨pytrunc (c.x - 15), w.y + w.height, 30, 15⟩ (wallRect w) := by
        intro hcc
        simp only [Colliderect, wallRect] at hcc
        omega
      rw [e1, handle_one, hrect2, resolveWall_miss _ _ _ hnc]
      exact ⟨rfl, rfl, rfl, rfl⟩
    · -- left-face correction; the second call misses
      have e1 : handle_wall_collisions [w] c =
          { c with x := ((w.x - carWidth / 2 : ℤ) : ℝ), vel_x := 0
                   on_ground := false, on_wall := true, wall_normal := (-1, 0) } := by
        rw [handle_one, resolveWall_left _ _ _ hcol (by rw [hx1, hw1]; omega)
          (by rw [hx1, hy1, hw1, hh1]; omega) (by rw [hx1, hy1, hw1]; omega)]
      have hxB : pytrunc (((w.x - carWidth / 2 : ℤ) : ℝ) - 15) = w.x - 30 := by
        rw [show ((w.x - carWidth / 2 : ℤ) : ℝ) - 15 = ((w.x - 30 : ℤ) : ℝ) by
          rw [show (carWidth / 2 : ℤ) = 15 by decide]; push_cast; ring]
        exact pytrunc_intCast _
      have hrect2 : carRect
          { c with x := ((w.x - carWidth / 2 : ℤ) : ℝ), vel_x := 0
                   on_ground := false, on_wall := true, wall_normal := (-1, 0) } =
          ⟨w.x - 30, pytrunc (c.y - 7), 30, 15⟩ := by
        rw [carRect_simplify]
        congr 1
      have hnc : ¬ Colliderect ⟨w.x - 30, pytrunc (c.y - 7), 30, 15⟩ (wallRect w) := by
        intro hcc
        simp only [Colliderect, wallRect] at hcc
        omega
      rw [e1, handle_one, hrect2, resolveWall_miss _ _ _ hnc]
      exact ⟨rfl, rfl, rfl, rfl⟩
    · -- right-face correction; the second call misses
      have e1 : handle_wall_collisions [w] c =
          { c with x := ((w.x + w.width + carWidth / 2 : ℤ) : ℝ), vel_x := 0
                   on_ground := false, on_wall := true, wall_normal := (1, 0) } := by
        rw [handle_one, resolveWall_right _ _ _ hcol (by rw [hx1, hw1]; omega)
          (by rw [hx1, hy1, hh1]; omega) (by rw [hx1, hy1]; omega)]
      have hxB : pytrunc (((w.x + w.width + carWidth / 2 : ℤ) : ℝ) - 15) = w.x + w.width := by
        rw [show ((w.x + w.width + carWidth / 2 : ℤ) : ℝ) - 15 = ((w.x + w.width : ℤ) : ℝ) by
          rw [show (carWidth / 2 : ℤ) = 15 by decide]; push_cast; ring]
        exact pytrunc_intCast _
      have hrect2 : carRect
          { c with x := ((w.x + w.width + carWidth / 2 : ℤ) : ℝ), vel_x := 0
                   on_ground := false, on_wall := true, wall_normal := (1, 0) } =
          ⟨w.x + w.width, pytrunc (c.y - 7), 30, 15⟩ := by
        rw [carRect_simplify]
        congr 1
      have hnc : ¬ Colliderect ⟨w.x + w.width, pytrunc (c.y - 7), 30, 15⟩ (wallRect w) := by
        intro hcc
        simp only [Colliderect, wallRect] at hcc
        omega
      rw [e1, handle_one, hrect2, resolveWall_miss _ _ _ hnc]
      exact ⟨rfl, rfl, rfl, rfl⟩
  · have e1 : handle_wall_collisions [w] c = { c with on_ground := false, on_wall := false } := by
      rw [handle_one, resolveWall_miss _ _ _ hcol]
    have hcr : carRect { c with on_ground := false, on_wall := false } = carRect c := rfl
    rw [e1, handle_one, hcr, resolveWall_miss _ _ _ hcol]
    exact ⟨rfl, rfl, rfl, rfl⟩

/-- C6, witness: resolving the concrete landing state against the platform
twice leaves position and velocity exactly as after one resolution. -/
theorem resolve_single_pos_vel_witness :
    (handle_wall_collisions [platform] (handle_wall_collisions [platform] fallCar)).x =
        (handle_wall_collisions [platform] fallCar).x ∧
      (handle_wall_collisions [platform] (handle_wall_collisions [platform] fallCar)).y =
        (handle_wall_collisions [platform] fallCar).y ∧
      (handle_wall_collisions [platform] (handle_wall_collisions [platform] fallCar)).vel_x =
        (handle_wall_collisions [platform] fallCar).vel_x ∧
      (handle_wall_collisions [platform] (handle_wall_collisions [platform] fallCar)).vel_y =
        (handle_wall_collisions [platform] fallCar).vel_y :=
  resolve_single_pos_vel fallCar platform (by norm_num [platform]) (by norm_num [platform])

end CarSim

namespace CarSim

theorem update_decompose (k : Keys) (walls : List Wall) (c d P : Car)
    (hd : clampSpeed (applyFriction (applyInput k (applyGravity c))) = d)
    (hP : { d with x := d.x + d.vel_x, y := d.y + d.vel_y } = P) :
    update k walls c =
      { handle_wall_collisions walls P with
        angle := pymod (handle_wall_collisions walls P).angle 360 } := by
  subst hd
  subst hP
  rfl

theorem no_collide_above (c : Car) (h0 : 0 ≤ c.y - 7) (hlt : c.y < 423) :
    ¬ Colliderect (carRect c) (wallRect platform) := by
  intro hcc
  have hcc' : (carRect c).w ≠ 0 ∧ (carRect c).h ≠ 0 ∧
      (wallRect platform).w ≠ 0 ∧ (wallRect platform).h ≠ 0 ∧
      (carRect c).x < (wallRect platform).x + (wallRect platform).w ∧
      (carRect c).y < (wallRect platform).y + (wallRect platform).h ∧
      (wallRect platform).x < (carRect c).x + (carRect c).w ∧
      (wallRect platform).y < (carRect c).y + (carRect c).h := hcc
  have h8' : (430:ℤ) < (carRect c).y + (carRect c).h := hcc'.2.2.2.2.2.2.2
  have hry : (carRect c).y = ⌊c.y - 7⌋ := by
    rw [carRect_simplify]; exact pytrunc_of_nonneg _ h0
  have hrh : (carRect c).h = 15 := by rw [carRect_simplify]
  rw [hry, hrh] at h8'
  have hfl : ⌊c.y - 7⌋ < 416 := Int.floor_lt.mpr (by push_cast; linarith)
  omega

theorem update_freefall (y vy : ℝ) (h0 : 0 ≤ vy) (h8 : vy + 0.5 ≤ 8)
    (hy7 : 0 ≤ y + (vy + 0.5) - 7) (hlt : y + (vy + 0.5) < 423) :
    update keys0 [platform]
      ⟨100, y, 0, vy, 0, false, false, (0, 0)⟩ =
      ⟨100, y + (vy + 0.5), 0, vy + 0.5, 0, false, false, (0, 0)⟩ := by
  have e1 : applyGravity ⟨100, y, 0, vy, 0, false, false, (0, 0)⟩ =
      ⟨100, y, 0, vy + 0.5, 0, false, false, (0, 0)⟩ := by
    norm_num [applyGravity, gravity, Car.mk.injEq]
  have e3 : applyFriction ⟨100, y, 0, vy + 0.5, 0, false, false, (0, 0)⟩ =
      ⟨100, y, 0, vy + 0.5, 0, false, false, (0, 0)⟩ := by
    norm_num [applyFriction, friction, Car.mk.injEq]
  have e4 : clampSpeed ⟨100, y, 0, vy + 0.5, 0, false, false, (0, 0)⟩ =
      ⟨100, y, 0, vy + 0.5, 0, false, false, (0, 0)⟩ :=
    clampSpeed_id _ (by show (0:ℝ) ^ 2 + (vy + 0.5) ^ 2 ≤ 64; nlinarith)
  rw [update_decompose keys0 [platform] _ ⟨100, y, 0, vy + 0.5, 0, false, false, (0, 0)⟩
    ⟨100, y + (vy + 0.5), 0, vy + 0.5, 0, false, false, (0, 0)⟩
    (by rw [e1, applyInput_none, e3, e4]) (by norm_num [Car.mk.injEq])]
  rw [handle_one, resolveWall_miss _ _ _ (no_collide_above _
    (by show 0 ≤ y + (vy + 0.5) - 7; linarith) (by show y + (vy + 0.5) < 423; linarith))]
  rw [Car.mk.injEq]
  norm_num [pymod_zero]

theorem update_landing :
    update keys0 [platform] ⟨100, 422.5, 0, 4.5, 0, false, false, (0, 0)⟩ = restCar := by
  have e1 : applyGravity ⟨100, 422.5, 0, 4.5, 0, false, false, (0, 0)⟩ =
      ⟨100, 422.5, 0, 5, 0, false, false, (0, 0)⟩ := by
    norm_num [applyGravity, gravity, Car.mk.injEq]
  have e3 : applyFriction ⟨100, 422.5, 0, 5, 0, false, false, (0, 0)⟩ =
      ⟨100, 422.5, 0, 5, 0, false, false, (0, 0)⟩ := by
    norm_num [applyFriction, friction, Car.mk.injEq]
  have e4 : clampSpeed ⟨100, 422.5, 0, 5, 0, false, false, (0, 0)⟩ =
      ⟨100, 422.5, 0, 5, 0, false, false, (0, 0)⟩ :=
    clampSpeed_id _ (by norm_num)
  rw [update_decompose keys0 [platform] _ ⟨100, 422.5, 0, 5, 0, false, false, (0, 0)⟩ fallCar
    (by rw [e1, applyInput_none, e3, e4]) (by norm_num [fallCar, Car.mk.injEq])]
  rw [resolve_fall]
  rw [Car.mk.injEq]
  norm_num [restCar, pymod_zero]

theorem resolve_rest : handle_wall_collisions [platform] restCar = restCar := by
  have hrect : carRect restCar = ⟨85, 416, 30, 15⟩ := by
    rw [carRect_simplify]
    have hx : pytrunc (restCar.x - 15) = 85 :=
      pytrunc_eq_of _ 85 (by norm_num [restCar]) (by norm_num [restCar]) (by norm_num [restCar])
    have hy : pytrunc (restCar.y - 7) = 416 :=
      pytrunc_eq_of _ 416 (by norm_num [restCar]) (by norm_num [restCar]) (by norm_num [restCar])
    rw [hx, hy]
  rw [handle_one, hrect]
  rw [resolveWall_top _ _ _ (by decide) (by decide) (by decide) (by decide)]
  norm_num [restCar, platform, carHeight, Car.mk.injEq]

theorem update_rest : update keys0 [platform] restCar = restCar := by
  have e1 : applyGravity restCar = restCar := by
    simp [applyGravity, restCar]
  have e3 : applyFriction restCar = restCar := by
    norm_num [applyFriction, friction, restCar, Car.mk.injEq]
  have e4 : clampSpeed restCar = restCar := clampSpeed_id _ (by norm_num [restCar])
  rw [update_decompose keys0 [platform] _ restCar restCar
    (by rw [e1, applyInput_none, e3, e4]) (by norm_num [restCar, Car.mk.injEq])]
  rw [resolve_rest]
  rw [Car.mk.injEq]
  norm_num [restCar, pymod_zero]

end CarSim

namespace CarSim

theorem scen1 : (update keys0 [platform])^[1] spawnCar =
    ⟨100, 400.5, 0, 0.5, 0, false, false, (0, 0)⟩ := by
  rw [Function.iterate_one]
  have h := update_freefall 400 0 (by norm_num) (by norm_num) (by norm_num) (by norm_num)
  rw [show spawnCar = ⟨100, 400, 0, 0, 0, false, false, (0, 0)⟩ from rfl, h]
  norm_num [Car.mk.injEq]

theorem scen2 : (update keys0 [platform])^[2] spawnCar =
    ⟨100, 401.5, 0, 1, 0, false, false, (0, 0)⟩ := by
  rw [show (2:ℕ) = 1 + 1 from rfl, Function.iterate_succ_apply', scen1]
  have h := update_freefall 400.5 0.5 (by norm_num) (by norm_num) (by norm_num) (by norm_num)
  rw [h]
  norm_num [Car.mk.injEq]

theorem scen3 : (update keys0 [platform])^[3] spawnCar =
    ⟨100, 403, 0, 1.5, 0, false, false, (0, 0)⟩ := by
  rw [show (3:ℕ) = 2 + 1 from rfl, Function.iterate_succ_apply', scen2]
  have h := update_freefall 401.5 1 (by norm_num) (by norm_num) (by norm_num) (by norm_num)
  rw [h]
  norm_num [Car.mk.injEq]

theorem scen4 : (update keys0 [platform])^[4] spawnCar =
    ⟨100, 405, 0, 2, 0, false, false, (0, 0)⟩ := by
  rw [show (4:ℕ) = 3 + 1 from rfl, Function.iterate_succ_apply', scen3]
  have h := update_freefall 403 1.5 (by norm_num) (by norm_num) (by norm_num) (by norm_num)
  rw [h]
  norm_num [Car.mk.injEq]

theorem scen5 : (update keys0 [platform])^[5] spawnCar =
    ⟨100, 407.5, 0, 2.5, 0, false, false, (0, 0)⟩ := by
  rw [show (5:ℕ) = 4 + 1 from rfl, Function.iterate_succ_apply', scen4]
  have h := update_freefall 405 2 (by norm_num) (by norm_num) (by norm_num) (by norm_num)
  rw [h]
  norm_num [Car.mk.injEq]

theorem scen6 : (update keys0 [platform])^[6] spawnCar =
    ⟨100, 410.5, 0, 3, 0, false, false, (0, 0)⟩ := by
  rw [show (6:ℕ) = 5 + 1 from rfl, Function.iterate_succ_apply', scen5]
  have h := update_freefall 407.5 2.5 (by norm_num) (by norm_num) (by norm_num) (by norm_num)
  rw [h]
  norm_num [Car.mk.injEq]

theorem scen7 : (update keys0 [platform])^[7] spawnCar =
    ⟨100, 414, 0, 3.5, 0, false, false, (0, 0)⟩ := by
  rw [show (7:ℕ) = 6 + 1 from rfl, Function.iterate_succ_apply', scen6]
  have h := update_freefall 410.5 3 (by norm_num) (by norm_num) (by norm_num) (by norm_num)
  rw [h]
  norm_num [Car.mk.injEq]

theorem scen8 : (update keys0 [platform])^[8] spawnCar =
    ⟨100, 418, 0, 4, 0, false, false, (0, 0)⟩ := by
  rw [show (8:ℕ) = 7 + 1 from rfl, Function.iterate_succ_apply', scen7]
  have h := update_freefall 414 3.5 (by norm_num) (by norm_num) (by norm_num) (by norm_num)
  rw [h]
  norm_num [Car.mk.injEq]

theorem scen9 : (update keys0 [platform])^[9] spawnCar =
    ⟨100, 422.5, 0, 4.5, 0, false, false, (0, 0)⟩ := by
  rw [show (9:ℕ) = 8 + 1 from rfl, Function.iterate_succ_apply', scen8]
  have h := update_freefall 418 4 (by norm_num) (by norm_num) (by norm_num) (by norm_num)
  rw [h]
  norm_num [Car.mk.injEq]

theorem scenario_iterate : (update keys0 [platform])^[10] spawnCar = restCar := by
  rw [show (10:ℕ) = 9 + 1 from rfl, Function.iterate_succ_apply', scen9]
  exact update_landing

/-- C2 (corrected): in the concrete scenario (vehicle 30 by 15 spawned at
(100, 400), zero velocity, platform {80, 430, 150, 30}, no input),
iterating the tick reaches after ten ticks a resting state — a fixed point
of `update` — with `on_ground` true, but its height is
`y = 430 - 15 // 2 = 423` (integer floor division in the resolver), not
`430 - 15/2 = 422.5` as the claim states. -/
theorem scenario_rest_height :
    (update keys0 [platform])^[10] spawnCar = restCar ∧ restCar.y = 423 ∧
      restCar.on_ground = true ∧ update keys0 [platform] restCar = restCar :=
  ⟨scenario_iterate, rfl, rfl, update_rest⟩

/-- C2, counterexample: the resting state the scenario actually reaches has
`y = 423 ≠ 422.5`; it is a fixed point of the tick, so the trajectory
never moves again, and during the fall (ticks 0 through 9) the vehicle is
never grounded — no reachable state is resting at `422.5` with `grounded`
true. -/
theorem scenario_never_at_422_5 :
    ((update keys0 [platform])^[10] spawnCar).y = 423 ∧
    ((update keys0 [platform])^[10] spawnCar).y ≠ 422.5 ∧
    update keys0 [platform] ((update keys0 [platform])^[10] spawnCar) =
      (update keys0 [platform])^[10] spawnCar ∧
    spawnCar.on_ground = false ∧
    ((update keys0 [platform])^[1] spawnCar).on_ground = false ∧
    ((update keys0 [platform])^[2] spawnCar).on_ground = false ∧
    ((update keys0 [platform])^[3] spawnCar).on_ground = false ∧
    ((update keys0 [platform])^[4] spawnCar).on_ground = false ∧
    ((update keys0 [platform])^[5] spawnCar).on_ground = false ∧
    ((update keys0 [platform])^[6] spawnCar).on_ground = false ∧
    ((update keys0 [platform])^[7] spawnCar).on_ground = false ∧
    ((update keys0 [platform])^[8] spawnCar).on_ground = false ∧
    ((update keys0 [platform])^[9] spawnCar).on_ground = false := by
  refine ⟨?_, ?_, ?_, rfl, ?_, ?_, ?_, ?_, ?_, ?_, ?_, ?_, ?_⟩
  · rw [scenario_iterate]
    norm_num [restCar]
  · rw [scenario_iterate]
    norm_num [restCar]
  · rw [scenario_iterate, update_rest]
  · rw [scen1]
  · rw [scen2]
  · rw [scen3]
  · rw [scen4]
  · rw [scen5]
  · rw [scen6]
  · rw [scen7]
  · rw [scen8]
  · rw [scen9]

end CarSim

namespace CarSim

theorem applyGravity_velx (c : Car) : (applyGravity c).vel_x = c.vel_x := by
  unfold applyGravity
  split <;> rfl

theorem applyInput_velx_factor (k : Keys) (c : Car)
    (hl : k.left = false) (hr : k.right = false) :
    ∃ d : ℝ, 0 < d ∧ d ≤ 1 ∧ (applyInput k c).vel_x = d * c.vel_x := by
  cases hu : k.up <;> cases hd : k.down <;> cases hw : c.on_wall <;> cases hg : c.on_ground <;>
    simp [applyInput, hl, hr, hu, hd, hw, hg] <;>
    first
    | exact ⟨1, by norm_num, le_refl 1, (one_mul _).symm⟩
    | exact ⟨0.7, by norm_num, by norm_num, mul_comm _ _⟩

theorem applyFriction_velx (c : Car) :
    (applyFriction c).vel_x = 0 ∨ (applyFriction c).vel_x = c.vel_x * friction := by
  simp only [applyFriction]
  split
  · left; rfl
  · right; rfl

theorem applyFriction_snap (c : Car) (h : |c.vel_x * friction| < 0.1) :
    (applyFriction c).vel_x = 0 := by
  simp only [applyFriction]
  rw [if_pos (show |({ c with vel_x := c.vel_x * friction } : Car).vel_x| < 0.1 from h)]

theorem clampSpeed_velx_factor (c : Car) :
    ∃ f : ℝ, 0 < f ∧ f ≤ 1 ∧ (clampSpeed c).vel_x = f * c.vel_x := by
  by_cases h : c.vel_x ^ 2 + c.vel_y ^ 2 ≤ 64
  · rw [clampSpeed_id c h]
    exact ⟨1, by norm_num, le_refl 1, (one_mul _).symm⟩
  · push_neg at h
    rw [clampSpeed_scale c h]
    have hS : (8:ℝ) ≤ Real.sqrt (c.vel_x ^ 2 + c.vel_y ^ 2) := by
      rw [show (8:ℝ) = Real.sqrt 64 from sqrt_sixty_four.symm]
      exact Real.sqrt_le_sqrt (by linarith)
    have hS0 : (0:ℝ) < Real.sqrt (c.vel_x ^ 2 + c.vel_y ^ 2) := by linarith
    refine ⟨max_speed / Real.sqrt (c.vel_x ^ 2 + c.vel_y ^ 2), ?_, ?_, ?_⟩
    · rw [max_speed]; positivity
    · rw [max_speed]
      rw [div_le_one hS0]
      exact hS
    · show c.vel_x / Real.sqrt (c.vel_x ^ 2 + c.vel_y ^ 2) * max_speed = _
      ring

theorem resolveWall_velx (rect : IntRect) (c : Car) (w : Wall) :
    (resolveWall rect c w).vel_x = c.vel_x ∨ (resolveWall rect c w).vel_x = 0 := by
  simp only [resolveWall]
  split
  · split
    · left; rfl
    · split
      · left; rfl
      · split
        · right; rfl
        · split
          · right; rfl
          · left; rfl
  · left; rfl

theorem foldl_velx (rect : IntRect) (walls : List Wall) :
    ∀ c : Car, (walls.foldl (resolveWall rect) c).vel_x = c.vel_x ∨
      (walls.foldl (resolveWall rect) c).vel_x = 0 := by
  induction walls with
  | nil => intro c; left; rfl
  | cons w ws ih =>
    intro c
    rw [List.foldl_cons]
    rcases ih (resolveWall rect c w) with h | h
    · rcases resolveWall_velx rect c w with h2 | h2
      · left; rw [h, h2]
      · right; rw [h, h2]
    · right; exact h
end CarSim

namespace CarSim

theorem handle_velx (walls : List Wall) (c : Car) :
    (handle_wall_collisions walls c).vel_x = c.vel_x ∨
      (handle_wall_collisions walls c).vel_x = 0 := by
  simp only [handle_wall_collisions]
  rcases foldl_velx (carRect c) walls { c with on_ground := false, on_wall := false } with h | h
  · left; exact h
  · right; exact h

theorem update_velx_eq (k : Keys) (walls : List Wall) (c : Car) :
    (update k walls c).vel_x =
      (handle_wall_collisions walls
        { clampSpeed (applyFriction (applyInput k (applyGravity c))) with
          x := (clampSpeed (applyFriction (applyInput k (applyGravity c)))).x +
            (clampSpeed (applyFriction (applyInput k (applyGravity c)))).vel_x
          y := (clampSpeed (applyFriction (applyInput k (applyGravity c)))).y +
            (clampSpeed (applyFriction (applyInput k (applyGravity c)))).vel_y }).vel_x := rfl

theorem update_velx_factor (k : Keys) (walls : List Wall) (c : Car)
    (hl : k.left = false) (hr : k.right = false) :
    ∃ r : ℝ, 0 ≤ r ∧ r ≤ friction ∧ (update k walls c).vel_x = r * c.vel_x := by
  obtain ⟨d, hd0, hd1, hdx⟩ := applyInput_velx_factor k (applyGravity c) hl hr
  rw [applyGravity_velx] at hdx
  obtain ⟨f, hf0, hf1, hfx⟩ :=
    clampSpeed_velx_factor (applyFriction (applyInput k (applyGravity c)))
  have hfr0 : (0:ℝ) < friction := by norm_num [friction]
  rcases handle_velx walls
      { clampSpeed (applyFriction (applyInput k (applyGravity c))) with
        x := (clampSpeed (applyFriction (applyInput k (applyGravity c)))).x +
          (clampSpeed (applyFriction (applyInput k (applyGravity c)))).vel_x
        y := (clampSpeed (applyFriction (applyInput k (applyGravity c)))).y +
          (clampSpeed (applyFriction (applyInput k (applyGravity c)))).vel_y } with hh | hh
  · rcases applyFriction_velx (applyInput k (applyGravity c)) with hfz | hfz
    · refine ⟨0, le_refl 0, le_of_lt hfr0, ?_⟩
      rw [update_velx_eq, hh]
      show (clampSpeed (applyFriction (applyInput k (applyGravity c)))).vel_x = 0 * c.vel_x
      rw [hfx, hfz]
      ring
    · refine ⟨f * d * friction, by positivity, ?_, ?_⟩
      · have hfd : f * d ≤ 1 := mul_le_one₀ hf1 (le_of_lt hd0) hd1
        have := mul_le_mul_of_nonneg_right hfd (le_of_lt hfr0)
        linarith
      · rw [update_velx_eq, hh]
        show (clampSpeed (applyFriction (applyInput k (applyGravity c)))).vel_x =
          f * d * friction * c.vel_x
        rw [hfx, hfz, hdx]
        ring
  · refine ⟨0, le_refl 0, le_of_lt hfr0, ?_⟩
    rw [update_velx_eq, hh]
    ring

theorem update_velx_snap (k : Keys) (walls : List Wall) (c : Car)
    (hl : k.left = false) (hr : k.right = false) (h : |c.vel_x| ≤ 0.1) :
    (update k walls c).vel_x = 0 := by
  obtain ⟨d, hd0, hd1, hdx⟩ := applyInput_velx_factor k (applyGravity c) hl hr
  rw [applyGravity_velx] at hdx
  have habs : |(applyInput k (applyGravity c)).vel_x * friction| < 0.1 := by
    rw [hdx, abs_mul, abs_mul, abs_of_pos hd0,
      abs_of_nonneg (show (0:ℝ) ≤ friction by norm_num [friction])]
    have h1 : d * |c.vel_x| ≤ 0.1 := by nlinarith [abs_nonneg c.vel_x]
    have h2 : (0:ℝ) ≤ d * |c.vel_x| := by positivity
    norm_num [friction]
    nlinarith
  have hfz : (applyFriction (applyInput k (applyGravity c))).vel_x = 0 :=
    applyFriction_snap _ habs
  have hcz : (clampSpeed (applyFriction (applyInput k (applyGravity c)))).vel_x = 0 := by
    obtain ⟨f, -, -, hfx⟩ :=
      clampSpeed_velx_factor (applyFriction (applyInput k (applyGravity c)))
    rw [hfx, hfz, mul_zero]
  rw [update_velx_eq]
  rcases handle_velx walls
      { clampSpeed (applyFriction (applyInput k (applyGravity c))) with
        x := (clampSpeed (applyFriction (applyInput k (applyGravity c)))).x +
          (clampSpeed (applyFriction (applyInput k (applyGravity c)))).vel_x
        y := (clampSpeed (applyFriction (applyInput k (applyGravity c)))).y +
          (clampSpeed (applyFriction (applyInput k (applyGravity c)))).vel_y } with hg | hg
  · rw [hg]
    exact hcz
  · exact hg

end CarSim

namespace CarSim

/-- C9 (confirmed): the code's friction constant 0.85 lies strictly
between 0 and 1, and for any key set without horizontal (left/right)
input, any obstacle list and any starting state, the iterated tick (i)
never flips the sign of `vel_x` — each tick multiplies `vel_x` by a factor
in [0, friction], so the product with the initial `vel_x` stays
nonnegative — and (ii) drives `vel_x` to exactly 0 within a bounded number
of ticks: once the post-friction magnitude falls below the snap epsilon
0.1, `vel_x` is assigned 0 and stays 0. -/
theorem friction_convergence (k : Keys) (walls : List Wall) (c : Car)
    (hl : k.left = false) (hr : k.right = false) :
    ((0:ℝ) < friction ∧ friction < 1) ∧
    (∀ n : ℕ, 0 ≤ ((update k walls)^[n] c).vel_x * c.vel_x) ∧
    ∃ N : ℕ, ∀ n : ℕ, N ≤ n → ((update k walls)^[n] c).vel_x = 0 := by
  refine ⟨⟨by norm_num [friction], by norm_num [friction]⟩, ?_, ?_⟩
  · have key : ∀ n : ℕ, ∃ R : ℝ, 0 ≤ R ∧ ((update k walls)^[n] c).vel_x = R * c.vel_x := by
      intro n
      induction n with
      | zero => exact ⟨1, by norm_num, (one_mul _).symm⟩
      | succ m ih =>
        obtain ⟨R, hR0, hRx⟩ := ih
        obtain ⟨r, hr0, -, hrx⟩ := update_velx_factor k walls ((update k walls)^[m] c) hl hr
        refine ⟨r * R, mul_nonneg hr0 hR0, ?_⟩
        rw [Function.iterate_succ_apply', hrx, hRx]
        ring
    intro n
    obtain ⟨R, hR0, hRx⟩ := key n
    rw [hRx, mul_assoc]
    exact mul_nonneg hR0 (mul_self_nonneg _)
  · have hfr0 : (0:ℝ) ≤ friction := by norm_num [friction]
    have bound : ∀ n : ℕ, |((update k walls)^[n] c).vel_x| ≤ friction ^ n * |c.vel_x| := by
      intro n
      induction n with
      | zero => simp
      | succ m ih =>
        obtain ⟨r, hr0, hr1, hrx⟩ := update_velx_factor k walls ((update k walls)^[m] c) hl hr
        rw [Function.iterate_succ_apply', hrx, abs_mul, abs_of_nonneg hr0]
        calc r * |((update k walls)^[m] c).vel_x| ≤
            friction * (friction ^ m * |c.vel_x|) :=
              mul_le_mul hr1 ih (abs_nonneg _) hfr0
          _ = friction ^ (m + 1) * |c.vel_x| := by ring
    obtain ⟨N, hN⟩ := exists_pow_lt_of_lt_one
      (show (0:ℝ) < 0.1 / (|c.vel_x| + 1) by positivity)
      (show friction < 1 by norm_num [friction])
    have hsmall : |((update k walls)^[N] c).vel_x| ≤ 0.1 := by
      have h1 := bound N
      have hpos : (0:ℝ) < |c.vel_x| + 1 := by positivity
      have h3 : friction ^ N * (|c.vel_x| + 1) < 0.1 := (lt_div_iff₀ hpos).mp hN
      have h2 : friction ^ N * |c.vel_x| ≤ friction ^ N * (|c.vel_x| + 1) :=
        mul_le_mul_of_nonneg_left (by linarith) (pow_nonneg hfr0 N)
      linarith
    refine ⟨N + 1, ?_⟩
    have zero_after : ∀ m : ℕ, ((update k walls)^[N + 1 + m] c).vel_x = 0 := by
      intro m
      induction m with
      | zero =>
        rw [show N + 1 + 0 = N + 1 from rfl, Function.iterate_succ_apply']
        exact update_velx_snap k walls _ hl hr hsmall
      | succ p ih =>
        rw [show N + 1 + (p + 1) = (N + 1 + p) + 1 by ring, Function.iterate_succ_apply']
        exact update_velx_snap k walls _ hl hr (by rw [ih]; norm_num)
    intro n hn
    rw [show n = N + 1 + (n - (N + 1)) by omega]
    exact zero_after _

/-- C9, witness: a car sliding with `vel_x = 5`, no input and no
obstacles: its horizontal velocity never flips sign and is exactly 0 from
some tick on. -/
theorem friction_convergence_witness :
    ((0:ℝ) < friction ∧ friction < 1) ∧
    (∀ n : ℕ, 0 ≤ ((update keys0 [])^[n] slideCar).vel_x * slideCar.vel_x) ∧
    ∃ N : ℕ, ∀ n : ℕ, N ≤ n → ((update keys0 [])^[n] slideCar).vel_x = 0 :=
  friction_convergence keys0 [] slideCar rfl rfl

end CarSim
